import Mathlib

/-!
Shallow embedding of the Redfish event receiver's deduplication core
(receiver.py): event fingerprinting, the time-windowed dedup cache,
cache expiry, device-config resolution of dedup windows and action
lists, config reloading, and event processing/dispatch.

Python strings are modelled as lists of characters (`PyStr`), dicts
keyed by strings as association lists with first-occurrence lookup and
in-place replacement, wall-clock instants as integer seconds, and the
logging side effects of action dispatch as an explicit list of
`Dispatch` records.
-/

namespace Redfish

/-- Python `str`, modelled as a list of characters. -/
abbrev PyStr := List Char

/-- The default string `"Unknown"` used by the receiver for missing fields. -/
def unknownS : PyStr := String.toList "Unknown"

/-- The `OriginOfCondition` sub-object of an event: a dict whose only field
read by the receiver is `@odata.id`. -/
structure Origin where
  odata_id : Option PyStr
deriving DecidableEq

/-- A Redfish event payload, with exactly the fields the receiver reads.
Every field is optional, mirroring dict `.get` access with defaults.
`MessageId` and `MessageID` are distinct keys (alternate capitalisations)
that may both be present. -/
structure Event where
  MessageId : Option PyStr
  MessageID : Option PyStr
  EventType : Option PyStr
  DeviceId : Option PyStr
  Severity : Option PyStr
  OriginOfCondition : Option Origin
  MessageArgs : Option (List PyStr)
  DeduplicationTimeWindow : Option Int
  Actions : Option (List PyStr)
deriving DecidableEq

/-- The event with no fields present. -/
def emptyEvent : Event :=
  ⟨none, none, none, none, none, none, none, none, none⟩

/-- One entry of a device config's `events` list: an (MessageId, EventType)
pattern with an action list. -/
structure ConfigEvent where
  MessageId : Option PyStr
  EventType : Option PyStr
  Actions : Option (List PyStr)
deriving DecidableEq

/-- A per-device configuration record, with the fields the dedup core reads. -/
structure DeviceConfig where
  device_id : Option PyStr
  device_name : Option PyStr
  default_deduplication_window : Option Int
  events : Option (List ConfigEvent)
deriving DecidableEq

/-- One entry of the dedup cache: `event_cache[key]` in the source. -/
structure CacheEntry where
  timestamp : Int
  count : Nat
  device_id : PyStr
deriving DecidableEq

/-- The dedup cache `event_cache`: a dict from fingerprint to entry,
modelled as an association list in insertion order. -/
abbrev Cache := List (PyStr × CacheEntry)

/-- The loaded device-config table `device_configs`. -/
abbrev Registry := List (PyStr × DeviceConfig)

/-- Dict lookup: value at the first occurrence of the key, if any. -/
def lookupD {β : Type} (k : PyStr) : List (PyStr × β) → Option β
  | [] => none
  | p :: rest => if p.1 = k then some p.2 else lookupD k rest

/-- Dict assignment `d[k] = v`: replace the value at an existing key in
place, else append a new binding. -/
def setD {β : Type} (k : PyStr) (v : β) : List (PyStr × β) → List (PyStr × β)
  | [] => [(k, v)]
  | p :: rest => if p.1 = k then (k, v) :: rest else p :: setD k v rest

/-- In-place `last_event["count"] += 1` on the entry stored at `k`. -/
def bumpCount (k : PyStr) : Cache → Cache
  | [] => []
  | p :: rest =>
      if p.1 = k then (p.1, ⟨p.2.timestamp, p.2.count + 1, p.2.device_id⟩) :: rest
      else p :: bumpCount k rest

/-- The loop body of `load_device_configs` (receiver.py lines 30-41) for one
source: a source either failed to parse (`none`) or yielded a config record;
a parsed record with a truthy `device_id` is inserted into the table, while a
parse failure or a missing or empty `device_id` leaves the table unchanged. -/
def loadStep (table : Registry) (src : Option DeviceConfig) : Registry :=
  match src with
  | none => table
  | some config_data =>
      match config_data.device_id with
      | none => table
      | some did => if did.isEmpty then table else setD did config_data table

/-- `load_device_configs` (receiver.py lines 23-44): starting from a fresh
empty table, fold `loadStep` over all sources. -/
def load_device_configs (sources : List (Option DeviceConfig)) : Registry :=
  sources.foldl loadStep []

/-- The state transition performed by a config reload: the prior table is
discarded wholesale and replaced by the table built from the sources. -/
def reload_device_configs (_prior : Registry) (sources : List (Option DeviceConfig)) :
    Registry :=
  load_device_configs sources

/-- `get_device_config` (receiver.py lines 46-48). -/
def get_device_config (registry : Registry) (device_id : PyStr) : Option DeviceConfig :=
  lookupD device_id registry

/-- `get_deduplication_window` (receiver.py lines 50-57). -/
def get_deduplication_window (event : Event) (device_config : Option DeviceConfig) : Int :=
  match event.DeduplicationTimeWindow with
  | some w => w
  | none =>
      match device_config with
      | some cfg =>
          match cfg.default_deduplication_window with
          | some w => w
          | none => 0
      | none => 0

/-- The message id used when matching config `events` entries
(receiver.py line 65): `event.get('MessageId', event.get('MessageID', ''))`. -/
def actionsMessageId (event : Event) : PyStr :=
  (event.MessageId).getD ((event.MessageID).getD [])

/-- The event type used when matching config `events` entries
(receiver.py line 66): `event.get('EventType', '')`. -/
def actionsEventType (event : Event) : PyStr :=
  (event.EventType).getD []

/-- The match test of receiver.py lines 69-70:
`config_event.get('MessageId') == message_id and config_event.get('EventType') == event_type`
(an absent key yields Python `None`, which never equals a string). -/
def configEventMatches (event : Event) (config_event : ConfigEvent) : Bool :=
  decide (config_event.MessageId = some (actionsMessageId event) ∧
          config_event.EventType = some (actionsEventType event))

/-- `get_event_actions` (receiver.py lines 59-73). -/
def get_event_actions (event : Event) (device_config : Option DeviceConfig) :
    List PyStr :=
  match event.Actions with
  | some a => a
  | none =>
      match device_config with
      | some cfg =>
          match cfg.events with
          | some evs =>
              match evs.find? (configEventMatches event) with
              | some config_event => (config_event.Actions).getD []
              | none => []
          | none => []
      | none => []

/-- Resolved message id for the fingerprint (receiver.py line 76). -/
def keyMessageId (event : Event) : PyStr :=
  (event.MessageId).getD ((event.MessageID).getD unknownS)

/-- Resolved event type for the fingerprint (receiver.py line 77). -/
def keyEventType (event : Event) : PyStr :=
  (event.EventType).getD unknownS

/-- Resolved device id (receiver.py line 78; also used at lines 115 and 139). -/
def keyDeviceId (event : Event) : PyStr :=
  (event.DeviceId).getD unknownS

/-- Resolved severity for the fingerprint (receiver.py line 79). -/
def keySeverity (event : Event) : PyStr :=
  (event.Severity).getD unknownS

/-- Resolved origin locator for the fingerprint (receiver.py lines 81-82). -/
def keyOriginId (event : Event) : PyStr :=
  (((event.OriginOfCondition).getD ⟨none⟩).odata_id).getD unknownS

/-- The joined message arguments (receiver.py line 84):
`"_".join(map(str, event.get('MessageArgs', [])))`. -/
def keyMessageArgs (event : Event) : PyStr :=
  List.intercalate ['_'] ((event.MessageArgs).getD [])

/-- `generate_event_key` (receiver.py lines 75-91): join the five resolved
identifying fields, plus the joined message arguments when that join is
non-empty, with the separator `"|"`. -/
def generate_event_key (event : Event) : PyStr :=
  let key_elements := [keyMessageId event, keyEventType event, keyDeviceId event,
                       keySeverity event, keyOriginId event]
  let key_elements :=
    if (keyMessageArgs event).isEmpty then key_elements
    else key_elements ++ [keyMessageArgs event]
  List.intercalate ['|'] key_elements

/-- `is_duplicate_event` (receiver.py lines 93-117), with the wall clock and
the cache passed explicitly; returns the verdict and the updated cache. -/
def is_duplicate_event (event : Event) (device_config : Option DeviceConfig)
    (current_time : Int) (cache : Cache) : Bool × Cache :=
  let dedup_window := get_deduplication_window event device_config
  if dedup_window ≤ 0 then
    (false, cache)
  else
    let event_key := generate_event_key event
    match lookupD event_key cache with
    | some last_event =>
        if current_time - last_event.timestamp < dedup_window then
          (true, bumpCount event_key cache)
        else
          (false, setD event_key ⟨current_time, 1, keyDeviceId event⟩ cache)
    | none => (false, setD event_key ⟨current_time, 1, keyDeviceId event⟩ cache)

/-- `clean_event_cache` (receiver.py lines 119-132): remove every entry
whose age strictly exceeds 3600 seconds, keeping the rest in order. -/
def clean_event_cache (current_time : Int) (cache : Cache) : Cache :=
  cache.filter (fun p => !(decide (current_time - p.2.timestamp > 3600)))

/-- One dispatch of an action name to the (stubbed) executor: either the
name was recognised by one of the `elif` arms of `execute_actions`, or it
fell through to the `Unknown action` arm. -/
inductive Dispatch where
  | known (action : PyStr) : Dispatch
  | fallback (action : PyStr) : Dispatch
deriving DecidableEq

/-- The action name a dispatch carries. -/
def Dispatch.action : Dispatch → PyStr
  | .known a => a
  | .fallback a => a

/-- The fixed vocabulary of action names recognised by `execute_actions`
(receiver.py lines 145-174). -/
def knownActions : List PyStr :=
  [String.toList "NotifyAdmin", String.toList "NotifyNetworkAdmin",
   String.toList "ShutdownServer", String.toList "LogChange",
   String.toList "LogError", String.toList "LogPerformance",
   String.toList "LogUpdate", String.toList "MonitorTemperature",
   String.toList "MonitorCPU", String.toList "InitializeDrive",
   String.toList "UpdateInventory", String.toList "UpdateNetworkStatus",
   String.toList "CheckPowerSupplies", String.toList "CheckCabling",
   String.toList "RerouteTraffic"]

/-- `execute_actions` (receiver.py lines 134-176), abstracting each logged
side effect to a `Dispatch` record: every action in the list is dispatched
in order, recognised or not. -/
def execute_actions (actions : List PyStr) : List Dispatch :=
  actions.map (fun a =>
    if knownActions.contains a then Dispatch.known a else Dispatch.fallback a)

/-- `process_event` (receiver.py lines 200-235), with the registry, clock
and cache explicit: resolve the device config and actions, run the
duplicate check, and dispatch the actions only when not a duplicate.
Returns the updated cache and the dispatches performed. -/
def process_event (registry : Registry) (current_time : Int) (cache : Cache)
    (event : Event) : Cache × List Dispatch :=
  let device_id := keyDeviceId event
  let device_config := get_device_config registry device_id
  let actions := get_event_actions event device_config
  let result := is_duplicate_event event device_config current_time cache
  if result.1 then (result.2, [])
  else (result.2, execute_actions actions)

/-! Spec-side predicates used to state the claims. -/

/-- The final `key_elements` list of `generate_event_key` (receiver.py
lines 86-89). -/
def keyElems (event : Event) : List PyStr :=
  if (keyMessageArgs event).isEmpty
  then [keyMessageId event, keyEventType event, keyDeviceId event,
        keySeverity event, keyOriginId event]
  else [keyMessageId event, keyEventType event, keyDeviceId event,
        keySeverity event, keyOriginId event, keyMessageArgs event]

/-- Two events are the same kind of event: they agree on the resolved
message identifier, event type, device identifier, severity, origin
locator, and message-argument sequence. -/
def sameKind (e1 e2 : Event) : Prop :=
  keyMessageId e1 = keyMessageId e2 ∧ keyEventType e1 = keyEventType e2 ∧
  keyDeviceId e1 = keyDeviceId e2 ∧ keySeverity e1 = keySeverity e2 ∧
  keyOriginId e1 = keyOriginId e2 ∧
  (e1.MessageArgs).getD [] = (e2.MessageArgs).getD []

/-- The message arguments stay clear of both join separators: each argument
is non-empty and contains neither the pipe nor the underscore character. -/
def goodArgs (event : Event) : Prop :=
  ∀ a ∈ (event.MessageArgs).getD [], a ≠ [] ∧ ('|' ∈ a → False) ∧ ('_' ∈ a → False)

/-- No resolved identifying field contains the reserved separator, and the
message arguments stay clear of both separators. -/
def goodFields (event : Event) : Prop :=
  ('|' ∈ keyMessageId event → False) ∧ ('|' ∈ keyEventType event → False) ∧
  ('|' ∈ keyDeviceId event → False) ∧ ('|' ∈ keySeverity event → False) ∧
  ('|' ∈ keyOriginId event → False) ∧ goodArgs event

/-- Replace every missing identifying field of an event by its documented
default (the resolved value the receiver substitutes for it). -/
def fillDefaults (event : Event) : Event :=
  ⟨some (keyMessageId event), none, some (keyEventType event),
   some (keyDeviceId event), some (keySeverity event),
   some ⟨some (keyOriginId event)⟩, some ((event.MessageArgs).getD []),
   event.DeduplicationTimeWindow, event.Actions⟩

/-- A config source that `loadStep` skips: a parse failure, or a record
whose `device_id` is missing or empty (falsy in Python). -/
def sourceInvalid : Option DeviceConfig → Prop
  | none => True
  | some config_data =>
      config_data.device_id = none ∨ config_data.device_id = some []

/-! Concrete inputs used by witnesses and counterexamples. -/

/-- Witness event for C1: explicit 5-second dedup window. -/
def eC1 : Event :=
  { emptyEvent with MessageId := some ['a'], EventType := some ['b'],
                    DeviceId := some ['d'], DeduplicationTimeWindow := some 5 }

/-- The fingerprint of `eC1`. -/
def kC1 : PyStr := generate_event_key eC1

/-- Witness cache for C1: `eC1` first recorded at time 0. -/
def cacheC1 : Cache := [(kC1, ⟨0, 1, ['d']⟩)]

/-- Witness cache for C2. -/
def cacheC2 : Cache := [(['k'], ⟨0, 1, ['d']⟩)]

/-- Counterexample event for C3: one message argument `"A_B"`. -/
def e3a : Event :=
  { emptyEvent with MessageId := some ['m'], EventType := some ['t'],
                    DeviceId := some ['d'], Severity := some ['s'],
                    OriginOfCondition := some ⟨some ['o']⟩,
                    MessageArgs := some [['A', '_', 'B']] }

/-- Counterexample event for C3: two message arguments `"A"`, `"B"`. -/
def e3b : Event :=
  { e3a with MessageArgs := some [['A'], ['B']] }

/-- Witness event for C3 (amended): message argument `"A"`. -/
def e3A : Event := { e3a with MessageArgs := some [['A']] }

/-- Witness event for C3 (amended): message argument `"B"`. -/
def e3B : Event := { e3a with MessageArgs := some [['B']] }

/-- Witness event for C4: explicit window 5. -/
def eC4 : Event := { emptyEvent with DeduplicationTimeWindow := some 5 }

/-- Witness config for C4: default window 9. -/
def cfgC4 : DeviceConfig := ⟨some ['d'], none, some 9, none⟩

/-- Witness event for C5: no explicit actions. -/
def eC5 : Event :=
  { emptyEvent with MessageId := some ['m'], EventType := some ['t'] }

/-- Witness config entry that does not match `eC5`. -/
def ceA : ConfigEvent := ⟨some ['z'], some ['t'], some [['w']]⟩

/-- Witness config entry matching `eC5`, the earlier of two matches. -/
def ceB : ConfigEvent := ⟨some ['m'], some ['t'], some [['x']]⟩

/-- Witness config entry matching `eC5`, the later of two matches. -/
def ceC : ConfigEvent := ⟨some ['m'], some ['t'], some [['y']]⟩

/-- Witness config for C5. -/
def cfgC5 : DeviceConfig := ⟨some ['d'], none, none, some [ceA, ceB, ceC]⟩

/-- A config record with no `device_id`, skipped by `loadStep`. -/
def cfgNoId : DeviceConfig := ⟨none, some ['n'], some 3, none⟩

/-- A valid config record for device `"d"`. -/
def cfgD : DeviceConfig := ⟨some ['d'], none, some 3, none⟩

/-- A registry populated by a prior successful load. -/
def regPrior : Registry := [(['d'], cfgD)]

/-- Witness event for C10: only the alternate `MessageID` capitalisation. -/
def eC10 : Event := { emptyEvent with MessageID := some ['x'] }

/-! Helper lemmas about the dict operations. -/

theorem lookupD_setD_self {β : Type} (k : PyStr) (v : β) (c : List (PyStr × β)) :
    lookupD k (setD k v c) = some v := by
  induction c with
  | nil => simp [setD, lookupD]
  | cons p rest ih =>
      by_cases h : p.1 = k
      · simp [setD, lookupD, h]
      · simp [setD, lookupD, h, ih]

theorem lookupD_bumpCount (k : PyStr) (c : Cache) (en : CacheEntry)
    (h : lookupD k c = some en) :
    lookupD k (bumpCount k c) = some ⟨en.timestamp, en.count + 1, en.device_id⟩ := by
  induction c with
  | nil => simp [lookupD] at h
  | cons p rest ih =>
      by_cases hp : p.1 = k
      · simp [lookupD, hp] at h
        simp [bumpCount, lookupD, hp, h]
      · simp [lookupD, hp] at h
        simp [bumpCount, lookupD, hp, ih h]

/-! Helper lemmas about `List.intercalate`. -/

theorem intercalate_nil (s : PyStr) : List.intercalate s [] = ([] : PyStr) := rfl

theorem intercalate_single (s a : PyStr) : List.intercalate s [a] = a := by
  simp [List.intercalate]

theorem intercalate_cons₂ (s a b : PyStr) (t : List PyStr) :
    List.intercalate s (a :: b :: t) = a ++ (s ++ List.intercalate s (b :: t)) := by
  simp [List.intercalate]

theorem not_mem_intercalate {c d : Char} (hcd : c ≠ d) (l : List PyStr)
    (hl : ∀ a ∈ l, ¬ c ∈ a) : ¬ c ∈ List.intercalate [d] l := by
  induction l with
  | nil => simp [intercalate_nil]
  | cons a t ih =>
      cases t with
      | nil => simpa [intercalate_single] using hl a (by simp)
      | cons b t2 =>
          rw [intercalate_cons₂]
          intro hmem
          rcases List.mem_append.mp hmem with h1 | h2
          · exact hl a (by simp) h1
          · rcases List.mem_append.mp h2 with hd | h3
            · simp at hd
              exact hcd hd
            · exact ih (fun x hx => hl x (List.mem_cons_of_mem a hx)) h3

theorem intercalate_ne_nil {d : Char} (a : PyStr) (t : List PyStr) (ha : a ≠ []) :
    List.intercalate [d] (a :: t) ≠ [] := by
  cases t with
  | nil => simpa [intercalate_single] using ha
  | cons b t2 =>
      rw [intercalate_cons₂]
      simp [ha]

theorem eq_nil_of_intercalate {d : Char} (l : List PyStr)
    (hl : ∀ a ∈ l, a ≠ []) (h : List.intercalate [d] l = []) : l = [] := by
  cases l with
  | nil => rfl
  | cons a t => exact absurd h (intercalate_ne_nil a t (hl a (by simp)))

theorem intercalate_inj {d : Char} {l1 l2 : List PyStr}
    (h1 : ∀ a ∈ l1, ¬ d ∈ a) (h2 : ∀ a ∈ l2, ¬ d ∈ a)
    (hn1 : l1 ≠ []) (hn2 : l2 ≠ [])
    (h : List.intercalate [d] l1 = List.intercalate [d] l2) : l1 = l2 := by
  have e1 := List.splitOn_intercalate l1 d h1 hn1
  have e2 := List.splitOn_intercalate l2 d h2 hn2
  rw [← e1, ← e2, h]

/-! Helper lemmas about config loading. -/

theorem loadStep_invalid (table : Registry) (s : Option DeviceConfig)
    (h : sourceInvalid s) : loadStep table s = table := by
  cases s with
  | none => rfl
  | some cfg =>
      rcases h with h | h
      · simp [loadStep, h]
      · simp [loadStep, h]

theorem foldl_loadStep_invariant (sources : List (Option DeviceConfig)) :
    ∀ table, (∀ s ∈ sources, sourceInvalid s) →
      sources.foldl loadStep table = table := by
  induction sources with
  | nil => intro t _; rfl
  | cons a l ih =>
      intro t h
      rw [List.foldl_cons, loadStep_invalid t a (h a (by simp))]
      exact ih t (fun s hs => h s (by simp [hs]))

/-! The claims. -/

/-- C2: when the resolved dedup window is at most 0, the duplicate check
returns not-duplicate and the cache is returned exactly as it was given:
no entry is added, changed, or removed. -/
theorem c2_window_disabled_no_mutation (event : Event) (dc : Option DeviceConfig)
    (t : Int) (cache : Cache)
    (h : get_deduplication_window event dc ≤ 0) :
    is_duplicate_event event dc t cache = (false, cache) := by
  unfold is_duplicate_event
  simp [h]

/-- Witness for C2 at a concrete event (no window anywhere, so it resolves
to 0) and a concrete non-empty cache. -/
theorem c2_witness :
    is_duplicate_event emptyEvent none 5 cacheC2 = (false, cacheC2) :=
  c2_window_disabled_no_mutation emptyEvent none 5 cacheC2 (by decide)

/-- C4: the effective dedup window is the event's explicit
`DeduplicationTimeWindow` whenever present; otherwise the device config's
`default_deduplication_window` whenever a config is present and has that
field; otherwise 0. -/
theorem c4_window_precedence (event : Event) (dc : Option DeviceConfig) :
    (∀ w, event.DeduplicationTimeWindow = some w →
        get_deduplication_window event dc = w) ∧
    (event.DeduplicationTimeWindow = none →
        ∀ cfg, dc = some cfg → ∀ d, cfg.default_deduplication_window = some d →
        get_deduplication_window event dc = d) ∧
    (event.DeduplicationTimeWindow = none →
        (dc = none ∨ ∃ cfg, dc = some cfg ∧ cfg.default_deduplication_window = none) →
        get_deduplication_window event dc = 0) := by
  refine ⟨?_, ?_, ?_⟩
  · intro w hw
    simp [get_deduplication_window, hw]
  · intro h cfg hc d hd
    subst hc
    simp [get_deduplication_window, h, hd]
  · intro h hcase
    rcases hcase with rfl | ⟨cfg, rfl, hd⟩
    · simp [get_deduplication_window, h]
    · simp [get_deduplication_window, h, hd]

/-- Witness for C4: an explicit event window of 5 beats a config default
of 9. -/
theorem c4_witness : get_deduplication_window eC4 (some cfgC4) = 5 :=
  (c4_window_precedence eC4 (some cfgC4)).1 5 rfl

/-- C6: config reload replaces the table wholesale: with zero valid
sources the resulting registry is empty no matter what the prior registry
held, and an invalid source anywhere in the list does not disturb the
loading of the remaining sources. -/
theorem c6_reload_wholesale :
    (∀ (prior : Registry) (sources : List (Option DeviceConfig)),
        (∀ s ∈ sources, sourceInvalid s) →
        reload_device_configs prior sources = []) ∧
    (∀ (prior : Registry) (xs : List (Option DeviceConfig))
        (bad : Option DeviceConfig) (ys : List (Option DeviceConfig)),
        sourceInvalid bad →
        reload_device_configs prior (xs ++ bad :: ys) =
          reload_device_configs prior (xs ++ ys)) := by
  constructor
  · intro prior sources h
    exact foldl_loadStep_invariant sources [] h
  · intro prior xs bad ys h
    unfold reload_device_configs load_device_configs
    rw [List.foldl_append, List.foldl_append, List.foldl_cons,
        loadStep_invalid _ bad h]

/-- Witness for C6: a reload from a populated registry with one parse
failure and one record lacking a device id yields the empty registry. -/
theorem c6_witness :
    reload_device_configs regPrior [none, some cfgNoId] = [] :=
  c6_reload_wholesale.1 regPrior [none, some cfgNoId] (by
    intro s hs
    rcases List.mem_cons.mp hs with rfl | hs2
    · trivial
    · rcases List.mem_cons.mp hs2 with rfl | hs3
      · exact Or.inl rfl
      · exact absurd hs3 (List.not_mem_nil s))

/-- C9: the 3600-second expiry sweep is idempotent: at a fixed current
time, sweeping an already swept cache changes nothing. -/
theorem c9_clean_idempotent (t : Int) (cache : Cache) :
    clean_event_cache t (clean_event_cache t cache) = clean_event_cache t cache := by
  unfold clean_event_cache
  rw [List.filter_filter]
  congr 1
  funext p
  exact Bool.and_self _

theorem find?_append_first {α : Type} (p : α → Bool) (pre : List α) (ce : α)
    (post : List α) (hpre : ∀ x ∈ pre, p x = false) (hce : p ce = true) :
    (pre ++ ce :: post).find? p = some ce := by
  induction pre with
  | nil => simpa using List.find?_cons_of_pos post hce
  | cons a t ih =>
      have ha := hpre a (by simp)
      rw [List.cons_append, List.find?_cons_of_neg _ (by simp [ha])]
      exact ih (fun x hx => hpre x (by simp [hx]))

theorem get_event_actions_congr (e1 e2 : Event) (dc : Option DeviceConfig)
    (hA : e1.Actions = e2.Actions)
    (hm : actionsMessageId e1 = actionsMessageId e2)
    (ht : actionsEventType e1 = actionsEventType e2) :
    get_event_actions e1 dc = get_event_actions e2 dc := by
  have hp : configEventMatches e1 = configEventMatches e2 := by
    funext ce
    unfold configEventMatches
    rw [hm, ht]
  unfold get_event_actions
  rw [hA, hp]

/-- C1: with a positive resolved window W and the fingerprint already
recorded with anchor timestamp t0, an occurrence at t1 with t1 - t0 < W is
reported duplicate and only increments the count (the anchor timestamp is
untouched), while an occurrence at t2 with t2 - t0 ≥ W is reported fresh
and overwrites the entry with timestamp t2 and count 1. -/
theorem c1_window_anchored_at_first (event : Event) (dc : Option DeviceConfig)
    (cache : Cache) (t0 t1 t2 : Int) (en : CacheEntry)
    (hW : 0 < get_deduplication_window event dc)
    (hen : lookupD (generate_event_key event) cache = some en)
    (ht0 : en.timestamp = t0) :
    (t1 - t0 < get_deduplication_window event dc →
        is_duplicate_event event dc t1 cache =
          (true, bumpCount (generate_event_key event) cache) ∧
        lookupD (generate_event_key event) (is_duplicate_event event dc t1 cache).2 =
          some ⟨t0, en.count + 1, en.device_id⟩) ∧
    (get_deduplication_window event dc ≤ t2 - t0 →
        is_duplicate_event event dc t2 cache =
          (false, setD (generate_event_key event) ⟨t2, 1, keyDeviceId event⟩ cache) ∧
        lookupD (generate_event_key event) (is_duplicate_event event dc t2 cache).2 =
          some ⟨t2, 1, keyDeviceId event⟩) := by
  subst ht0
  have hW2 : ¬ get_deduplication_window event dc ≤ 0 := by omega
  constructor
  · intro hlt
    have heq : is_duplicate_event event dc t1 cache =
        (true, bumpCount (generate_event_key event) cache) := by
      unfold is_duplicate_event
      simp [hW2, hen, hlt]
    refine ⟨heq, ?_⟩
    rw [heq]
    exact lookupD_bumpCount (generate_event_key event) cache en hen
  · intro hge
    have hnlt2 : ¬ t2 - en.timestamp < get_deduplication_window event dc := by omega
    have heq : is_duplicate_event event dc t2 cache =
        (false, setD (generate_event_key event) ⟨t2, 1, keyDeviceId event⟩ cache) := by
      unfold is_duplicate_event
      simp [hW2, hen, hnlt2]
    refine ⟨heq, ?_⟩
    rw [heq]
    exact lookupD_setD_self (generate_event_key event) _ cache

/-- Witness for C1: the event with window 5 first recorded at time 0 is a
duplicate at time 2, with count bumped to 2 and anchor still 0. -/
theorem c1_witness :
    is_duplicate_event eC1 none 2 cacheC1 = (true, bumpCount kC1 cacheC1) ∧
    lookupD kC1 (is_duplicate_event eC1 none 2 cacheC1).2 = some ⟨0, 2, ['d']⟩ :=
  (c1_window_anchored_at_first eC1 none cacheC1 0 2 6 ⟨0, 1, ['d']⟩ (by decide)
      (by decide) rfl).1 (by decide)

/-- C5: the resolved action list is the event's explicit `Actions` field
when present; otherwise the action list of the first entry of the device
config's `events` list whose (MessageId, EventType) pair matches the
event's (earlier entries govern on duplicates); otherwise empty. -/
theorem c5_action_resolution (event : Event) (dc : Option DeviceConfig) :
    (∀ a, event.Actions = some a → get_event_actions event dc = a) ∧
    (event.Actions = none → ∀ cfg, dc = some cfg →
        ∀ evs, cfg.events = some evs →
        (∀ pre ce post, evs = pre ++ ce :: post →
            (∀ ce2 ∈ pre, configEventMatches event ce2 = false) →
            configEventMatches event ce = true →
            get_event_actions event dc = (ce.Actions).getD []) ∧
        ((∀ ce ∈ evs, configEventMatches event ce = false) →
            get_event_actions event dc = [])) ∧
    (event.Actions = none →
        (dc = none ∨ ∃ cfg, dc = some cfg ∧ cfg.events = none) →
        get_event_actions event dc = []) := by
  refine ⟨?_, ?_, ?_⟩
  · intro a ha
    simp [get_event_actions, ha]
  · intro hA cfg hdc evs hevs
    subst hdc
    constructor
    · intro pre ce post hsplit hpre hce
      have hfind : evs.find? (configEventMatches event) = some ce := by
        rw [hsplit]
        exact find?_append_first _ pre ce post hpre hce
      simp [get_event_actions, hA, hevs, hfind]
    · intro hnone
      have hfind : evs.find? (configEventMatches event) = none :=
        List.find?_eq_none.mpr (fun x hx => by simp [hnone x hx])
      simp [get_event_actions, hA, hevs, hfind]
  · intro hA hcase
    rcases hcase with rfl | ⟨cfg, rfl, hev⟩
    · simp [get_event_actions, hA]
    · simp [get_event_actions, hA, hev]

/-- Witness for C5: with no explicit actions, the earlier of two matching
config entries supplies the action list. -/
theorem c5_witness : get_event_actions eC5 (some cfgC5) = [['x']] :=
  ((c5_action_resolution eC5 (some cfgC5)).2.1 rfl cfgC5 rfl
      [ceA, ceB, ceC] rfl).1 [ceA] ceB [ceC] rfl (by decide) (by decide)

/-- C7: the dispatched action names are exactly the resolved action list,
in order, when the duplicate check says fresh, and nothing when it says
duplicate; an unrecognised name is still dispatched (to the fallback arm)
and does not block the remaining actions. -/
theorem c7_dispatch_iff_not_duplicate (registry : Registry) (t : Int)
    (cache : Cache) (event : Event) :
    ((process_event registry t cache event).2).map Dispatch.action =
      (if (is_duplicate_event event
              (get_device_config registry (keyDeviceId event)) t cache).1
       then []
       else get_event_actions event
              (get_device_config registry (keyDeviceId event))) ∧
    execute_actions [String.toList "NotifyAdmin", String.toList "Bogus",
        String.toList "LogError"] =
      [Dispatch.known (String.toList "NotifyAdmin"),
       Dispatch.fallback (String.toList "Bogus"),
       Dispatch.known (String.toList "LogError")] := by
  have hact : ∀ a : PyStr,
      Dispatch.action
        (if a ∈ knownActions then Dispatch.known a else Dispatch.fallback a) = a := by
    intro a
    by_cases h2 : a ∈ knownActions <;> simp [h2, Dispatch.action]
  constructor
  · simp only [process_event, execute_actions, List.map_map]
    by_cases h : (is_duplicate_event event
        (get_device_config registry (keyDeviceId event)) t cache).1 = true
    · simp [h]
    · simp only [h, if_false, Bool.false_eq_true]
      simp [Function.comp_def, hact]
  · decide

/-- C8: fingerprint computation is total over all events and substitutes
the default for every missing identifying field: explicitly filling each
missing field with its default leaves the fingerprint unchanged, and the
fully empty event yields the all-default fingerprint. -/
theorem c8_fingerprint_total_defaults :
    (∀ event : Event,
        generate_event_key (fillDefaults event) = generate_event_key event) ∧
    generate_event_key emptyEvent =
      String.toList "Unknown|Unknown|Unknown|Unknown|Unknown" := by
  constructor
  · intro e
    rfl
  · decide

/-- C10: when `MessageId` is absent but `MessageID` is present, fingerprint
computation and config action matching use the `MessageID` value as the
message identifier; when `MessageId` is present it takes precedence and
`MessageID` is ignored. -/
theorem c10_messageID_fallback (event : Event) (dc : Option DeviceConfig)
    (m : PyStr) :
    (event.MessageId = none → event.MessageID = some m →
        generate_event_key event =
          generate_event_key { event with MessageId := some m, MessageID := none } ∧
        get_event_actions event dc =
          get_event_actions { event with MessageId := some m, MessageID := none } dc) ∧
    (∀ m1, event.MessageId = some m1 →
        generate_event_key event =
          generate_event_key { event with MessageID := none } ∧
        get_event_actions event dc =
          get_event_actions { event with MessageID := none } dc) := by
  constructor
  · intro h1 h2
    constructor
    · simp [generate_event_key, keyMessageId, keyEventType, keyDeviceId,
            keySeverity, keyOriginId, keyMessageArgs, h1, h2]
    · refine get_event_actions_congr _ _ dc rfl ?_ rfl
      simp [actionsMessageId, h1, h2]
  · intro m1 h1
    constructor
    · simp [generate_event_key, keyMessageId, keyEventType, keyDeviceId,
            keySeverity, keyOriginId, keyMessageArgs, h1]
    · refine get_event_actions_congr _ _ dc rfl ?_ rfl
      simp [actionsMessageId, h1]

/-- Witness for C10: an event carrying only `MessageID` fingerprints the
same as the event carrying that value under `MessageId`. -/
theorem c10_witness :
    generate_event_key eC10 =
      generate_event_key { eC10 with MessageId := some ['x'], MessageID := none } :=
  ((c10_messageID_fallback eC10 none ['x']).1 rfl rfl).1

/-! Helper lemmas for the fingerprint injectivity claim. -/

theorem generate_event_key_eq_intercalate (event : Event) :
    generate_event_key event = List.intercalate ['|'] (keyElems event) := by
  unfold generate_event_key keyElems
  split <;> rfl

theorem keyElems_ne_nil (event : Event) : keyElems event ≠ [] := by
  unfold keyElems
  split <;> simp

theorem keyElems_sep_free (event : Event) (h : goodFields event) :
    ∀ s ∈ keyElems event, ¬ '|' ∈ s := by
  obtain ⟨h1, h2, h3, h4, h5, hargs⟩ := h
  have hjoin : ¬ '|' ∈ keyMessageArgs event := by
    unfold keyMessageArgs
    exact not_mem_intercalate (by decide) _ (fun a ha => (hargs a ha).2.1)
  intro s hs
  unfold keyElems at hs
  by_cases hc : (keyMessageArgs event).isEmpty
  · rw [if_pos hc] at hs
    simp only [List.mem_cons, List.not_mem_nil, or_false] at hs
    rcases hs with rfl | rfl | rfl | rfl | rfl
    exacts [h1, h2, h3, h4, h5]
  · rw [if_neg hc] at hs
    simp only [List.mem_cons, List.not_mem_nil, or_false] at hs
    rcases hs with rfl | rfl | rfl | rfl | rfl | rfl
    exacts [h1, h2, h3, h4, h5, hjoin]

theorem args_nil_of_isEmpty (event : Event) (h : goodArgs event)
    (he : (keyMessageArgs event).isEmpty = true) :
    (event.MessageArgs).getD [] = [] := by
  have hz : keyMessageArgs event = [] := List.isEmpty_iff.mp he
  unfold keyMessageArgs at hz
  exact eq_nil_of_intercalate _ (fun a ha => (h a ha).1) hz

theorem args_ne_nil_of_not_isEmpty (event : Event)
    (h : ¬ (keyMessageArgs event).isEmpty = true) :
    (event.MessageArgs).getD [] ≠ [] := by
  intro hnil
  apply h
  have : keyMessageArgs event = [] := by
    unfold keyMessageArgs
    rw [hnil]
    rfl
  simp [this]

theorem generate_event_key_congr (e1 e2 : Event) (h : sameKind e1 e2) :
    generate_event_key e1 = generate_event_key e2 := by
  obtain ⟨h1, h2, h3, h4, h5, h6⟩ := h
  have hargs : keyMessageArgs e1 = keyMessageArgs e2 := by
    unfold keyMessageArgs
    rw [h6]
  rw [generate_event_key_eq_intercalate, generate_event_key_eq_intercalate]
  unfold keyElems
  rw [h1, h2, h3, h4, h5, hargs]

/-- C3 counterexample: two events that agree on every identifying field
except the message-argument sequence (one argument `"A_B"` versus the two
arguments `"A"`, `"B"`) nevertheless have equal fingerprints, so equal
fingerprints do not imply being the same kind of event. -/
theorem c3_counterexample :
    generate_event_key e3a = generate_event_key e3b ∧ ¬ sameKind e3a e3b := by
  refine ⟨by decide, fun hsk => ?_⟩
  exact absurd hsk.2.2.2.2.2 (by decide)

/-- C3 (amended): provided no resolved identifying field contains the
reserved separator and every message argument is non-empty and free of
both separators, two events have equal fingerprints iff they are the same
kind of event; in particular arguments `"A"` versus `"B"` give different
fingerprints. -/
theorem c3_fingerprint_injective_amended (e1 e2 : Event)
    (h1 : goodFields e1) (h2 : goodFields e2) :
    generate_event_key e1 = generate_event_key e2 ↔ sameKind e1 e2 := by
  constructor
  · intro h
    rw [generate_event_key_eq_intercalate, generate_event_key_eq_intercalate] at h
    have helems := intercalate_inj (keyElems_sep_free e1 h1) (keyElems_sep_free e2 h2)
      (keyElems_ne_nil e1) (keyElems_ne_nil e2) h
    have g1args := h1.2.2.2.2.2
    have g2args := h2.2.2.2.2.2
    unfold keyElems at helems
    by_cases c1 : (keyMessageArgs e1).isEmpty <;>
      by_cases c2 : (keyMessageArgs e2).isEmpty
    · rw [if_pos c1, if_pos c2] at helems
      simp only [List.cons.injEq, and_true] at helems
      obtain ⟨q1, q2, q3, q4, q5⟩ := helems
      exact ⟨q1, q2, q3, q4, q5, by
        rw [args_nil_of_isEmpty e1 g1args c1, args_nil_of_isEmpty e2 g2args c2]⟩
    · rw [if_pos c1, if_neg c2] at helems
      simp at helems
    · rw [if_neg c1, if_pos c2] at helems
      simp at helems
    · rw [if_neg c1, if_neg c2] at helems
      simp only [List.cons.injEq, and_true] at helems
      obtain ⟨q1, q2, q3, q4, q5, qargs⟩ := helems
      refine ⟨q1, q2, q3, q4, q5, ?_⟩
      exact intercalate_inj (fun a ha => (g1args a ha).2.2)
        (fun a ha => (g2args a ha).2.2)
        (args_ne_nil_of_not_isEmpty e1 c1) (args_ne_nil_of_not_isEmpty e2 c2) qargs
  · exact generate_event_key_congr e1 e2

/-- Witness for C3 (amended): events identical except for message
arguments `"A"` versus `"B"` have different fingerprints. -/
theorem c3_witness : generate_event_key e3A ≠ generate_event_key e3B := fun h =>
  absurd
    ((c3_fingerprint_injective_amended e3A e3B
        (by unfold goodFields goodArgs; decide)
        (by unfold goodFields goodArgs; decide)).mp h).2.2.2.2.2
    (by decide)

end Redfish
